import Mathlib

/-!
# Verification of the qvh-data-load ingest pipeline

A shallow embedding of the qvh-data-load repository (`src/blob.py`,
`src/fileshare.py`, `src/main.py`, `src/sql.py`, `src/utils.py`) together
with theorems settling the frozen specification claims.

Conventions of the embedding:
* Python strings are Lean `String`s; character-level operations are carried
  out on `String.data` (a `List Char`) so that every definition is
  executable and kernel-reducible.
* Fallible Python code (raised exceptions) is embedded as `Except` /
  `Option` results.
* Remote storage state is a list of entry names; the busy-poll of the copy
  status is embedded as the list of statuses the poll observes.
* pandas `DataFrame`s are embedded as a column-name list plus a row list of
  string cells; `DataFrame.equals` is structural equality.
-/

deriving instance DecidableEq for Except

namespace QvhDataLoad

/-! ## String helpers (Python string methods used by the source) -/

/-- Python `str.lower()` restricted to ASCII, which is all the file names
use (`utils.filter_files` calls `file.lower()`). -/
def lowerStr (s : String) : String := ⟨s.data.map Char.toLower⟩

/-- Python `str.endswith(suffix)`: suffix test on the character list. -/
def endswith (s suffix : String) : Bool := suffix.data.isSuffixOf s.data

/-- Python `str.lstrip(chars)`: remove the longest leading run of
characters drawn from the set `chars` (NOT a prefix removal). Transcribed
from the Python semantics of `str.lstrip`. -/
def lstripChars (chars : String) (s : String) : String :=
  ⟨s.data.dropWhile (fun c => c ∈ chars.data)⟩

/-- Splitting a character list at every occurrence of a separator
character; `splitOnChar c l` models Python `str.split(c)` for a
single-character separator (used for `file.split("/")`, and for the
date-part split of the spec-modelled pandas parse). -/
def splitOnChar (c : Char) : List Char → List (List Char)
  | [] => [[]]
  | x :: xs =>
    match splitOnChar c xs with
    | [] => if x = c then [[], []] else [[x]]
    | y :: ys => if x = c then [] :: y :: ys else (x :: y) :: ys

/-- Python `file.split("/")[-1]` / `os.path.basename` as used in
`main.py` and `fileshare.py`. -/
def basename (p : String) : String :=
  ⟨(splitOnChar (Char.ofNat 47) p.data).getLastD p.data⟩

/-- Parse a nonempty all-digit character list as a decimal number. -/
def digitsToNat? (l : List Char) : Option Nat :=
  if l.isEmpty then none
  else if l.all Char.isDigit then
    some (l.foldl (fun n c => n * 10 + (c.toNat - 48)) 0)
  else none

/-! ## `utils.py` -/

/-- Supported parser kinds of `utils.process_file`. -/
inductive ParseKind
  | csv
  | excel
deriving DecidableEq

/-- `exc.DataFileError`: raised by `utils.process_file` for an unsupported
file extension. -/
inductive DataFileError
  | unsupported (path : String)
deriving DecidableEq

/-- The extension dispatch of `utils.process_file` (`main.py` calls it on
every downloaded file).  Transcribed from the source:
`if file_path.endswith(".csv") ... elif file_path.endswith(".xls") or
file_path.endswith(".xlsx") ... else raise DataFileError`. -/
def process_file_kind (file_path : String) : Except DataFileError ParseKind :=
  if endswith file_path ".csv" then .ok .csv
  else if endswith file_path ".xls" || endswith file_path ".xlsx" then .ok .excel
  else .error (.unsupported file_path)

/-- `utils.filter_files`: keep the file names whose lower-cased form ends
with `.csv`, `.xls` or `.xlsx`. -/
def filter_files (files : List String) : List String :=
  files.filter (fun file =>
    endswith (lowerStr file) ".csv" || endswith (lowerStr file) ".xls" ||
      endswith (lowerStr file) ".xlsx")

/-! ## Storage adapters (`blob.py`, `fileshare.py`) -/

/-- Terminal/pending status of an Azure copy operation. -/
inductive CopyStatus
  | pending
  | success
  | aborted
  | failed
deriving DecidableEq

/-- The busy-poll loop of both archive functions: keep reading the copy
status while it is `pending`; `none` when every observed status is
`pending` (the Python loop would not terminate). -/
def firstTerminal : List CopyStatus → Option CopyStatus
  | [] => none
  | s :: rest => if s = .pending then firstTerminal rest else some s

/-- `exc.FileShareError`, raised by `archive_in_fileshare` when the copy
did not report success. -/
inductive FileShareError
  | archiveFailed (path : String)
deriving DecidableEq

/-- `blob.list_files_in_blob_storage` / `fileshare.list_files_in_fileshare`
after the remote listing: both build `(name, last_modified)` pairs in
listing order, sort them with Python's stable `list.sort(key=lambda x:
x[1])` (ascending last-modified), and return the names.  `List.mergeSort`
is a stable sort, exactly like Python's. -/
def list_files_sorted (files : List (String × Nat)) : List String :=
  (files.mergeSort (fun a b => a.2 ≤ b.2)).map Prod.fst

/-- `blob.archive_in_blob` acting on the container state `entries` (the
names of the existing remote entries): start the copy, poll until the
status is no longer `pending`, then delete the source blob.  The source
contains no success check: `delete_blob` runs for every terminal status
and no error is ever raised.  The copy itself creates the destination
entry only when it succeeded.  Result: `none` if the poll never leaves
`pending`, otherwise `some (raisedError?, entriesAfter)`. -/
def archive_in_blob (entries : List String) (src_blob_name dest_blob_name : String)
    (polls : List CopyStatus) : Option (Option FileShareError × List String) :=
  match firstTerminal polls with
  | none => none
  | some status =>
    let afterCopy := if status = .success then entries ++ [dest_blob_name] else entries
    some (none, afterCopy.erase src_blob_name)

/-- `fileshare.archive_in_fileshare` acting on the share state `entries`:
copy to `destination_path/basename(source_path)`, poll until terminal,
raise `FileShareError` (without deleting the source) unless the status is
`success`, and only then delete the source file. -/
def archive_in_fileshare (entries : List String) (source_path destination_path : String)
    (polls : List CopyStatus) : Option (Option FileShareError × List String) :=
  match firstTerminal polls with
  | none => none
  | some status =>
    let destFile := destination_path ++ "/" ++ basename source_path
    let afterCopy := if status = .success then entries ++ [destFile] else entries
    if status = .success then some (none, afterCopy.erase source_path)
    else some (some (.archiveFailed source_path), afterCopy)

/-! ## Tabular data (pandas `DataFrame`s as used by the pipeline) -/

/-- A parsed table: ordered column names and rows of string cells.
`DataFrame.equals` of pandas (full structural equality: same columns, same
row count, same cell values in the same order) is `=` on this type. -/
structure DataFrame where
  columns : List String
  rows : List (List String)
deriving DecidableEq

/-- `utils.process_file`'s provenance step:
`data["SourceFile"] = file_name` — overwrite the `SourceFile` column if it
exists, otherwise append it as the last column. -/
def addSourceFile (df : DataFrame) (file_name : String) : DataFrame :=
  match df.columns.findIdx? (fun c => c = "SourceFile") with
  | some i => ⟨df.columns, df.rows.map (fun r => r.set i file_name)⟩
  | none => ⟨df.columns ++ ["SourceFile"], df.rows.map (fun r => r ++ [file_name])⟩

/-- Errors that abort a feed run (uncaught Python exceptions) plus the
end-of-run `ValueError("No new data found")`. -/
inductive PErr
  | keyError
  | dateParseError
  | configError
  | noNewData
deriving DecidableEq

/-- Modelled from the spec: the date parse of the external pandas library
(`pd.to_datetime`, not part of this repository).  The spec only requires
"parse as a date"; we accept the slash-separated numeric forms the feed
data uses (`YYYY`, `M/YYYY`, `M/D/YYYY`), defaulting missing components
to 1 as pandas does, and reject everything else. -/
def parseDateParts (s : String) : Option (Nat × Nat × Nat) :=
  match (splitOnChar (Char.ofNat 47) s.data).mapM digitsToNat? with
  | some [y] => some (1, 1, y)
  | some [m, y] => some (1, m, y)
  | some [m, d, y] => some (d, m, y)
  | _ => none

/-- Zero-padded two-digit rendering used by `strftime`. -/
def pad2 (n : Nat) : String := if n < 10 then "0" ++ toString n else toString n

/-- Modelled from the spec: the external `strftime("%d-%m-%Y")` re-render
of a parsed date as `DD-MM-YYYY`. -/
def renderDDMMYYYY : Nat × Nat × Nat → String
  | (d, m, y) => pad2 d ++ "-" ++ pad2 m ++ "-" ++ toString y

/-- The per-cell Period pipeline of `main.py`
(`.apply(lambda s: str(s).lstrip("01/"))` then `pd.to_datetime` then
`.dt.strftime("%d-%m-%Y")`); `none` when the date parse fails (pandas
raises). -/
def periodCell (s : String) : Option String :=
  (parseDateParts (lstripChars "01/" s)).map renderDDMMYYYY

/-- The three `data["Period"] = ...` statements of `main.py` applied to a
table: a missing `Period` column raises `KeyError`; an unparseable cell
raises inside `pd.to_datetime`. -/
def transformPeriod (df : DataFrame) : Except PErr DataFrame :=
  match df.columns.findIdx? (fun c => c = "Period") with
  | none => .error .keyError
  | some i =>
    match df.rows.mapM (fun r =>
        match r.get? i with
        | none => Except.error PErr.keyError
        | some c =>
          match periodCell c with
          | none => Except.error PErr.dateParseError
          | some v => Except.ok (r.set i v)) with
    | .error e => .error e
    | .ok rs => .ok ⟨df.columns, rs⟩

/-! ## The orchestrator (`main.py` `__main__` block) -/

/-- The observable calls the `__main__` loops make for one file. -/
inductive Ev
  | download (file : String)
  | archive (file : String)
  | parse (file : String)
  | skipSchema (file : String)
  | skipDup (file : String)
  | stage (file : String)
  | merge (file : String)
  | log (file : String)
deriving DecidableEq

/-- `required_columns` of the blob feed loop in `main.py`. -/
def requiredColumns : List String :=
  ["Metric Name", "Period", "Specialty/Trust", "Numerator", "Denominator"]

/-- The positional rename target `data.columns = [...]` of the blob feed
loop. -/
def canonicalColumns : List String :=
  ["Metric Name", "Period", "Specialty/Trust", "Numerator", "Denominator", "SourceFile"]

/-- One file of the blob ("qvh" container) feed loop of `main.py`:
download, parse, required-column check (skip on mismatch), positional
rename to `canonicalColumns` (pandas raises on a length mismatch), Period
transform, duplicate check against `previous_data`, then
`to_sql` (stage) / `merge_data` / `archive_in_blob` / `log_file` and
`previous_data = data`.  Returns the emitted events plus either the
uncaught exception or the updated `(previous_data, data_changed)` pair. -/
def blobFileEvents (prev : Option DataFrame) (file : String) (parsed : DataFrame) :
    List Ev × Except PErr (Option DataFrame × Bool) :=
  let data := addSourceFile parsed (basename file)
  if requiredColumns.all (fun c => c ∈ data.columns) then
    if data.columns.length = canonicalColumns.length then
      match transformPeriod ⟨canonicalColumns, data.rows⟩ with
      | .error e => ([.download file, .parse file], .error e)
      | .ok tdata =>
        if prev = some tdata then
          ([.download file, .parse file, .skipDup file], .ok (prev, false))
        else
          ([.download file, .parse file, .stage file, .merge file, .archive file, .log file],
            .ok (some tdata, true))
    else ([.download file, .parse file], .error .configError)
  else ([.download file, .parse file, .skipSchema file], .ok (prev, false))

/-- One file of the file-share `Uploads/IQPR` feed loop of `main.py`:
download, `archive_in_fileshare` IMMEDIATELY (before the file is even
parsed), parse, duplicate check of `previous_data` against the raw parsed
table, then Period transform, `to_sql` (stage), the inline `MERGE` query,
`log_file`, and `previous_data = data` (the transformed table). -/
def iqprFileEvents (prev : Option DataFrame) (file : String) (parsed : DataFrame) :
    List Ev × Except PErr (Option DataFrame × Bool) :=
  let data := addSourceFile parsed (basename file)
  if prev = some data then
    ([.download file, .archive file, .parse file, .skipDup file], .ok (prev, false))
  else
    match transformPeriod data with
    | .error e => ([.download file, .archive file, .parse file], .error e)
    | .ok tdata =>
      ([.download file, .archive file, .parse file, .stage file, .merge file, .log file],
        .ok (some tdata, true))

/-- One file of the file-share `Uploads/IQPR/ElectiveRecovery` feed loop
of `main.py`; same shape as the IQPR loop (download, archive immediately,
parse, duplicate check on the raw table, transform, stage, inline merge,
log). -/
def electiveFileEvents (prev : Option DataFrame) (file : String) (parsed : DataFrame) :
    List Ev × Except PErr (Option DataFrame × Bool) :=
  let data := addSourceFile parsed (basename file)
  if prev = some data then
    ([.download file, .archive file, .parse file, .skipDup file], .ok (prev, false))
  else
    match transformPeriod data with
    | .error e => ([.download file, .archive file, .parse file], .error e)
    | .ok tdata =>
      ([.download file, .archive file, .parse file, .stage file, .merge file, .log file],
        .ok (some tdata, true))

/-- Fold one feed's `for file in files:` loop: `previous_data` starts at
`None` for each feed, `data_changed` is threaded through from the
surrounding job and only ever set to `True`; an uncaught exception aborts
the whole process. -/
def runFiles
    (step : Option DataFrame → String → DataFrame → List Ev × Except PErr (Option DataFrame × Bool)) :
    Option DataFrame → Bool → List (String × DataFrame) → List Ev × Except PErr Bool
  | _, changed, [] => ([], .ok changed)
  | prev, changed, (file, parsed) :: rest =>
    match step prev file parsed with
    | (evs, .error e) => (evs, .error e)
    | (evs, .ok (prev2, fchanged)) =>
      match runFiles step prev2 (changed || fchanged) rest with
      | (evs2, out) => (evs ++ evs2, out)

/-- The statements `execute_query` runs at the end of `main.py`. -/
inductive QueryId
  | refreshTimes
  | updateCalculatedMeasures
deriving DecidableEq

/-- The end-of-run block of `main.py`: if `data_changed is True`, run the
`scd.RefreshTimes` update and the `scd.UpdateCalculatedMeasures` stored
procedure; otherwise raise `ValueError("No new data found")`. -/
def jobEnd (data_changed : Bool) : Except PErr (List QueryId) :=
  if data_changed then .ok [.refreshTimes, .updateCalculatedMeasures]
  else .error .noNewData

/-- The whole `__main__` run over the three feeds (each feed's files given
as already-downloaded parsed tables): blob feed, IQPR file-share feed,
ElectiveRecovery file-share feed, then the end-of-run block. -/
def runJob (blobFiles iqprFiles electiveFiles : List (String × DataFrame)) :
    List Ev × Except PErr (List QueryId) :=
  match runFiles blobFileEvents none false blobFiles with
  | (e1, .error e) => (e1, .error e)
  | (e1, .ok c1) =>
    match runFiles iqprFileEvents none c1 iqprFiles with
    | (e2, .error e) => (e1 ++ e2, .error e)
    | (e2, .ok c2) =>
      match runFiles electiveFileEvents none c2 electiveFiles with
      | (e3, .error e) => (e1 ++ e2 ++ e3, .error e)
      | (e3, .ok c3) => (e1 ++ e2 ++ e3, jobEnd c3)

/-! ## `sql.py` -/

/-- A row of the `staging.Metrics_Generic` table, as loaded by `to_sql`
from the canonical six columns; `none` cells are SQL `NULL`s. -/
structure StagingRow where
  metricName : String
  period : String
  specialty : String
  numerator : Option String
  denominator : Option String
  sourceFile : String
deriving DecidableEq

/-- A row of the `scd.measure` lookup table. -/
structure Measure where
  measure_id : Nat
  measure_description : String
deriving DecidableEq

/-- The `INNER JOIN scd.measure m ON m.measure_description = b.[Metric
Name]` common to `sql.merge_data` and the inline IQPR merge query. -/
def joinMeasures (measures : List Measure) (staging : List StagingRow) :
    List (Measure × StagingRow) :=
  staging.flatMap (fun b =>
    (measures.filter (fun m => m.measure_description = b.metricName)).map (fun m => (m, b)))

/-- The `WHERE ISNULL(Numerator,'') <> ''` filter of `sql.merge_data`:
keep a staging row iff its Numerator is neither NULL nor the empty
string. -/
def merge_data_keeps (r : StagingRow) : Bool := r.numerator.getD "" ≠ ""

/-- The `WHERE numerator IS NOT NULL` filter of the inline IQPR merge
query in `main.py`: keep a staging row iff its Numerator is not NULL
(empty strings are kept). -/
def iqpr_merge_keeps (r : StagingRow) : Bool := r.numerator.isSome

/-- The merge source set built by `sql.merge_data`'s `USING (...)`
subquery. -/
def merge_data_sourceSet (measures : List Measure) (staging : List StagingRow) :
    List (Measure × StagingRow) :=
  (joinMeasures measures staging).filter (fun p => merge_data_keeps p.2)

/-- The merge source set built by the inline IQPR merge query's
`USING (...)` subquery in `main.py`. -/
def iqpr_merge_sourceSet (measures : List Measure) (staging : List StagingRow) :
    List (Measure × StagingRow) :=
  (joinMeasures measures staging).filter (fun p => iqpr_merge_keeps p.2)

/-- The single quote character of SQL string literals. -/
def sqlQuote : Char := Char.ofNat 39

/-- The text of `sql.log_file`'s f-string before the interpolated
`file_name`. -/
def logQueryPrefix : String :=
  "\n        INSERT INTO scd.MetricFileLog (FileName, Source, DateUploaded)\n        VALUES ("

/-- The text of `sql.log_file`'s f-string after the interpolated
`source`. -/
def logQuerySuffix : String := ", GETDATE())\n        "

/-- The INSERT statement `sql.log_file` builds, transcribed from the
f-string: the file name and source are interpolated directly between the
parenthesis and the comma of the VALUES clause. -/
def log_file_query (file_name source : String) : String :=
  logQueryPrefix ++ file_name ++ "," ++ source ++ logQuerySuffix

end QvhDataLoad

namespace QvhDataLoad

/-- Scratch sanity examples (verified while building the embedding). -/
example : filter_files ["a.CSV", "b.txt", "c.xlsx"] = ["a.CSV", "c.xlsx"] := by decide
example : process_file_kind "a.CSV" = .error (.unsupported "a.CSV") := rfl
example : lstripChars "01/" "01/03/2024" = "3/2024" := by decide
example : basename "Uploads/IQPR/report.csv" = "report.csv" := by decide
unseal List.merge List.mergeSort in
example : list_files_sorted [("b.csv", 2), ("a.csv", 1)] = ["a.csv", "b.csv"] := by decide
example : archive_in_blob ["a.csv"] "a.csv" "Processed/a.csv" [.failed] = some (none, []) := by
  decide

example : periodCell "01/03/2024" = some "01-03-2024" := by decide
example : periodCell "10/2024" = some "01-01-2024" := by decide
example :
    transformPeriod ⟨["Period"], [["01/03/2024"]]⟩ = .ok ⟨["Period"], [["01-03-2024"]]⟩ := by
  decide
example :
    (blobFileEvents none "dir/r.csv"
        ⟨["Metric Name", "Period", "Specialty/Trust", "Numerator", "Denominator"],
          [["M1", "01/03/2024", "T", "1", "2"]]⟩).1 =
      [.download "dir/r.csv", .parse "dir/r.csv", .stage "dir/r.csv", .merge "dir/r.csv",
        .archive "dir/r.csv", .log "dir/r.csv"] := by decide
example :
    (iqprFileEvents none "bad.csv" ⟨["Foo"], [["x"]]⟩).1 =
      [.download "bad.csv", .archive "bad.csv", .parse "bad.csv"] := by decide
example : runJob [] [] [] = ([], .error .noNewData) := rfl

/-! ## Claim C1: archive deletes the source only on copy success -/

/-- C1 counterexample: on the blob adapter, when the copy terminates with
status `failed`, `archive_in_blob` still deletes the source blob (the
container goes from `["a.csv"]` to `[]`) and raises no `ArchiveError`
(the error component is `none`), contradicting the claim that the source
is deleted only if the copy reports success. -/
theorem c1_blob_archive_deletes_on_failed_copy :
    archive_in_blob ["a.csv"] "a.csv" "home/IQPR/Processed/a.csv" [CopyStatus.failed]
      = some (none, []) := by decide

/-- C1 (amended): only the file-share adapter checks the copy status: it
raises `FileShareError` and leaves the share state unchanged when the
terminal status is not `success`, and deletes the source only on
`success`; the blob adapter never raises and deletes the source
unconditionally once the copy reaches any terminal status. -/
theorem c1_archive_success_check_amended
    (entries : List String) (src dest destDir : String) (polls : List CopyStatus)
    (st : CopyStatus) (hpoll : firstTerminal polls = some st) :
    (st ≠ .success →
      archive_in_fileshare entries src destDir polls
        = some (some (.archiveFailed src), entries)) ∧
    (st = .success →
      archive_in_fileshare entries src destDir polls
        = some (none, (entries ++ [destDir ++ "/" ++ basename src]).erase src)) ∧
    archive_in_blob entries src dest polls
      = some (none, (if st = .success then entries ++ [dest] else entries).erase src) := by
  unfold archive_in_fileshare archive_in_blob
  rw [hpoll]
  refine ⟨fun h => ?_, fun h => ?_, rfl⟩ <;> simp [h]

/-- Witness for C1 (amended) at a concrete share/container state, with a
poll sequence that is pending once and then fails. -/
theorem c1_archive_success_check_amended_witness :
    archive_in_fileshare ["a.csv"] "a.csv" "Processed"
        [CopyStatus.pending, CopyStatus.failed]
      = some (some (.archiveFailed "a.csv"), ["a.csv"]) ∧
    archive_in_blob ["a.csv"] "a.csv" "p/a.csv" [CopyStatus.pending, CopyStatus.failed]
      = some (none, []) := by
  have h := c1_archive_success_check_amended ["a.csv"] "a.csv" "p/a.csv" "Processed"
    [CopyStatus.pending, CopyStatus.failed] CopyStatus.failed (by decide)
  refine ⟨h.1 (by decide), ?_⟩
  rw [h.2.2]; decide

/-! ## Claim C5: `log_file` interpolates values unquoted -/

/-- C5: the INSERT statement built by `sql.log_file` embeds `file_name`
and `source` directly in the VALUES clause as bare tokens: the query is
exactly the fixed prefix, the file name, a comma, the source and the fixed
suffix, and (whenever the two inputs contain no single-quote character)
the whole statement contains no single-quote character at all, so the
values cannot be SQL string literals. -/
theorem c5_log_file_bare_interpolation (file_name source : String)
    (hf : sqlQuote ∉ file_name.data) (hs : sqlQuote ∉ source.data) :
    log_file_query file_name source
      = logQueryPrefix ++ file_name ++ "," ++ source ++ logQuerySuffix ∧
    sqlQuote ∉ (log_file_query file_name source).data := by
  refine ⟨rfl, ?_⟩
  unfold log_file_query
  simp only [String.data_append, List.mem_append, not_or]
  exact ⟨⟨⟨⟨by decide, hf⟩, by decide⟩, hs⟩, by decide⟩

/-- Witness for C5 at the audit log's actual call shape
(`log_file(file_name=..., source="SFTP")`). -/
theorem c5_log_file_bare_interpolation_witness :
    log_file_query "report.csv" "SFTP"
      = logQueryPrefix ++ "report.csv" ++ "," ++ "SFTP" ++ logQuerySuffix ∧
    sqlQuote ∉ (log_file_query "report.csv" "SFTP").data :=
  c5_log_file_bare_interpolation "report.csv" "SFTP" (by decide) (by decide)

/-! ## Claim C6: refresh signal iff some feed changed data -/

/-- C6: the end-of-run block succeeds exactly when the accumulated
`data_changed` flag is true, in which case it runs the `scd.RefreshTimes`
update (the refresh signal) followed by the stored procedure; when no feed
changed data it raises `ValueError("No new data found")` and no query is
emitted — in particular a whole run over three empty feeds ends in that
error with an empty event trace. -/
theorem c6_refresh_signal :
    (∀ data_changed : Bool, (jobEnd data_changed).isOk = data_changed) ∧
    jobEnd true = .ok [QueryId.refreshTimes, QueryId.updateCalculatedMeasures] ∧
    jobEnd false = .error PErr.noNewData ∧
    runJob [] [] [] = ([], .error PErr.noNewData) := by
  refine ⟨fun c => ?_, rfl, rfl, rfl⟩
  cases c <;> rfl

/-! ## Claim C8: merge source sets and null/empty Numerator rows -/

/-- C8 counterexample: a staging row whose Numerator is the empty string
(not NULL) is kept in the source set of the inline IQPR merge query
(`WHERE numerator IS NOT NULL`), contradicting the claim that null-or-
empty Numerator rows are excluded from every merge's source set. -/
theorem c8_inline_merge_keeps_empty_numerator :
    (⟨1, "M1"⟩, ⟨"M1", "01-03-2024", "T", some "", some "2", "r.csv"⟩) ∈
      iqpr_merge_sourceSet [⟨1, "M1"⟩]
        [⟨"M1", "01-03-2024", "T", some "", some "2", "r.csv"⟩] := by decide

/-- C8 (amended): `sql.merge_data` (`WHERE ISNULL(Numerator,'') <> ''`)
excludes staging rows whose Numerator is NULL or empty from its source
set, but the inline IQPR merge query of `main.py`
(`WHERE numerator IS NOT NULL`) excludes only NULL Numerator rows —
empty-string rows stay in its source set. -/
theorem c8_merge_source_filters_amended (measures : List Measure)
    (staging : List StagingRow) (m : Measure) (r : StagingRow) :
    ((m, r) ∈ merge_data_sourceSet measures staging → r.numerator.getD "" ≠ "") ∧
    ((m, r) ∈ iqpr_merge_sourceSet measures staging → r.numerator ≠ none) := by
  constructor <;> intro h
  · have hk := (List.mem_filter.mp h).2
    simpa [merge_data_keeps] using hk
  · have hk := (List.mem_filter.mp h).2
    simp only [iqpr_merge_keeps, Option.isSome_iff_ne_none] at hk
    exact hk

/-- Witness for C8 (amended) at a one-row staging table with a populated
Numerator, which both source sets keep. -/
theorem c8_merge_source_filters_amended_witness :
    (some "5" : Option String).getD "" ≠ "" ∧ (some "5" : Option String) ≠ none :=
  ⟨(c8_merge_source_filters_amended [⟨1, "M1"⟩]
      [⟨"M1", "01-03-2024", "T", some "5", some "2", "r.csv"⟩] ⟨1, "M1"⟩
      ⟨"M1", "01-03-2024", "T", some "5", some "2", "r.csv"⟩).1 (by decide),
    (c8_merge_source_filters_amended [⟨1, "M1"⟩]
      [⟨"M1", "01-03-2024", "T", some "5", some "2", "r.csv"⟩] ⟨1, "M1"⟩
      ⟨"M1", "01-03-2024", "T", some "5", some "2", "r.csv"⟩).2 (by decide)⟩

/-! ## Claim C9: filename filter versus loader dispatch -/

/-- C9 counterexample: `report.CSV` is accepted by the case-insensitive
filename filter, yet `process_file`'s case-sensitive extension dispatch
raises the unsupported-format error on it, contradicting the claim that
every filter-accepted file parses without that error. -/
theorem c9_filter_loader_disagree_on_upper_case :
    filter_files ["report.CSV"] = ["report.CSV"] ∧
    process_file_kind "report.CSV" = .error (.unsupported "report.CSV") :=
  ⟨by decide, rfl⟩

/-- C9 (amended): the loader's dispatch is case-sensitive (it matches the
literal suffixes `.csv`, `.xls`, `.xlsx`), so filter-accepted names with
upper-case extension letters raise `DataFileError`; for names that are
already lower-case, the filter and the dispatch agree exactly. -/
theorem c9_dispatch_case_sensitive_amended (path : String) (h : lowerStr path = path) :
    filter_files [path] = [path] ↔ (process_file_kind path).isOk = true := by
  unfold filter_files process_file_kind
  simp only [List.filter_cons, List.filter_nil]
  rw [h]
  cases hcsv : endswith path ".csv" <;>
    cases hxls : endswith path ".xls" <;>
      cases hxlsx : endswith path ".xlsx" <;>
        simp [hcsv, hxls, hxlsx, Except.isOk, Except.toBool]

/-- Witness for C9 (amended) at the lower-case name `report.csv`. -/
theorem c9_dispatch_case_sensitive_amended_witness :
    filter_files ["report.csv"] = ["report.csv"] ↔
      (process_file_kind "report.csv").isOk = true :=
  c9_dispatch_case_sensitive_amended "report.csv" (by decide)

/-! ## Claim C7: the Period strip -/

/-- The Period strip as the spec words it: remove exactly the literal
leading prefix `01/` when present, leaving any other leading characters
intact. (Stated from the spec, for comparison with the code's
`lstripChars`.) -/
def specStripLiteral01 (s : String) : String :=
  if ("01/" : String).data.isPrefixOf s.data then ⟨s.data.drop 3⟩ else s

/-- Helper: a character list whose head is known not to satisfy `p` is
untouched by `dropWhile p`. -/
theorem dropWhile_eq_self_of_head (p : Char → Bool) (l : List Char)
    (h : ∀ c, l.head? = some c → p c = false) : l.dropWhile p = l := by
  cases l with
  | nil => rfl
  | cons x xs => simp [List.dropWhile_cons, h x rfl]

/-- C7 counterexample: `str.lstrip("01/")` strips a character SET, not the
literal prefix.  On `10/2024` (which does not start with `01/`) the code
strips the leading `10/` entirely, and even on `01/03/2024` (which does
start with `01/`) it also eats the `0` of `03`, so the code's strip
differs from the spec's literal-prefix strip on both kinds of input. -/
theorem c7_lstrip_strips_charset_not_literal :
    lstripChars "01/" "10/2024" = "2024" ∧
    specStripLiteral01 "10/2024" = "10/2024" ∧
    lstripChars "01/" "10/2024" ≠ specStripLiteral01 "10/2024" ∧
    lstripChars "01/" "01/03/2024" = "3/2024" ∧
    specStripLiteral01 "01/03/2024" = "03/2024" := by decide

/-- C7 (amended): the transform's first stage strips ALL leading
characters drawn from the set `{0, 1, /}` (Python `lstrip` semantics):
the input decomposes as a maximal prefix of such characters followed by
the stripped remainder, whose first character (if any) is outside the
set; when the input starts with `01/` and the next character is outside
the set, this coincides with stripping exactly the literal prefix.  The
result is then date-parsed and re-rendered as `DD-MM-YYYY`
(`periodCell`). -/
theorem c7_period_strip_amended (s : String) :
    s.data.takeWhile (fun c => c ∈ ("01/" : String).data)
        ++ (lstripChars "01/" s).data = s.data ∧
    (∀ c ∈ s.data.takeWhile (fun c => c ∈ ("01/" : String).data),
      c ∈ ("01/" : String).data) ∧
    (∀ c, (lstripChars "01/" s).data.head? = some c → c ∉ ("01/" : String).data) ∧
    (("01/" : String).data.isPrefixOf s.data →
      (∀ c, (s.data.drop 3).head? = some c → c ∉ ("01/" : String).data) →
      lstripChars "01/" s = specStripLiteral01 s) ∧
    periodCell s = (parseDateParts (lstripChars "01/" s)).map renderDDMMYYYY := by
  refine ⟨List.takeWhile_append_dropWhile _ _, fun c hc => by
      simpa using List.mem_takeWhile_imp hc,
    fun c hc => ?_, fun hpre hhead => ?_, rfl⟩
  · have h := List.head?_dropWhile_not (fun c => decide (c ∈ ("01/" : String).data)) s.data
    rw [show (lstripChars "01/" s).data
        = s.data.dropWhile (fun c => decide (c ∈ ("01/" : String).data)) from rfl] at hc
    rw [hc] at h
    simpa using h
  · obtain ⟨t, ht⟩ := List.isPrefixOf_iff_prefix.mp hpre
    unfold lstripChars specStripLiteral01
    rw [if_pos hpre]
    have hdata : s.data = '0' :: '1' :: Char.ofNat 47 :: t := by
      rw [← ht]; rfl
    rw [hdata]
    simp only [List.dropWhile_cons]
    norm_num
    congr 1
    apply dropWhile_eq_self_of_head
    intro c hc
    have : (s.data.drop 3).head? = some c := by rw [hdata]; simpa using hc
    simpa using hhead c this

/-- Witness for C7 (amended) at `01/03/2024`, a real Period cell. -/
theorem c7_period_strip_amended_witness :
    ("01/03/2024" : String).data.takeWhile (fun c => c ∈ ("01/" : String).data)
        ++ (lstripChars "01/" "01/03/2024").data = ("01/03/2024" : String).data ∧
    periodCell "01/03/2024"
      = (parseDateParts (lstripChars "01/" "01/03/2024")).map renderDDMMYYYY :=
  ⟨(c7_period_strip_amended "01/03/2024").1, (c7_period_strip_amended "01/03/2024").2.2.2.2⟩

/-! ## Claims C2, C3, C4: per-file pipeline traces -/

/-- A well-formed generic-feed file as parsed from a CSV: exactly the five
required raw columns, one data row. -/
def dfGeneric : DataFrame :=
  ⟨["Metric Name", "Period", "Specialty/Trust", "Numerator", "Denominator"],
    [["M1", "01/03/2024", "T", "1", "2"]]⟩

/-- A parsed file missing every required raw column. -/
def dfMissing : DataFrame := ⟨["Foo"], [["x"]]⟩

/-- C2 counterexample: in the file-share IQPR feed loop the archive call
happens immediately after the download, BEFORE the file is parsed, staged
or merged — in the per-file trace the archive event strictly precedes the
merge event, contradicting the claim that archiving never precedes the
merge commit. -/
theorem c2_fileshare_archives_before_merge :
    Ev.merge "report.csv" ∈ (iqprFileEvents none "report.csv" dfGeneric).1 ∧
    (iqprFileEvents none "report.csv" dfGeneric).1.indexOf (Ev.archive "report.csv") <
      (iqprFileEvents none "report.csv" dfGeneric).1.indexOf (Ev.merge "report.csv") := by
  decide

/-- C2 (amended): only the blob feed archives after the merge commit —
whenever its per-file trace contains an archive call at all, the trace is
exactly download, parse, stage, merge, archive, log (merge strictly before
archive); both file-share feed loops instead begin every file with
download, archive, parse, so there the archive always precedes any merge.
-/
theorem c2_archive_ordering_amended (prev : Option DataFrame) (file : String)
    (parsed : DataFrame) :
    (Ev.archive file ∈ (blobFileEvents prev file parsed).1 →
      (blobFileEvents prev file parsed).1
        = [.download file, .parse file, .stage file, .merge file, .archive file,
            .log file]) ∧
    (iqprFileEvents prev file parsed).1.take 3
      = [.download file, .archive file, .parse file] ∧
    (electiveFileEvents prev file parsed).1.take 3
      = [.download file, .archive file, .parse file] := by
  refine ⟨?_, ?_, ?_⟩
  · unfold blobFileEvents
    dsimp only
    split
    · split
      · split
        · intro h; simp at h
        · split
          · intro h; simp at h
          · intro _; rfl
      · intro h; simp at h
    · intro h; simp at h
  · unfold iqprFileEvents
    dsimp only
    split
    · rfl
    · split <;> rfl
  · unfold electiveFileEvents
    dsimp only
    split
    · rfl
    · split <;> rfl

/-- Witness for C2 (amended): a blob-feed file that is actually staged,
merged, archived and logged, in that order. -/
theorem c2_archive_ordering_amended_witness :
    (blobFileEvents none "dir/r.csv" dfGeneric).1
      = [.download "dir/r.csv", .parse "dir/r.csv", .stage "dir/r.csv",
          .merge "dir/r.csv", .archive "dir/r.csv", .log "dir/r.csv"] :=
  (c2_archive_ordering_amended none "dir/r.csv" dfGeneric).1 (by decide)

/-- C3 counterexample: a downloaded file-share file missing every required
raw column is still archived (the archive call precedes the parse), and
the missing `Period` column then surfaces as an uncaught `KeyError`-style
exception rather than a variant rejection — contradicting the claim that
such files are rejected with no archive call and no exception. -/
theorem c3_fileshare_missing_columns_archived :
    Ev.archive "bad.csv" ∈ (iqprFileEvents none "bad.csv" dfMissing).1 ∧
    (iqprFileEvents none "bad.csv" dfMissing).2 = .error PErr.keyError := by decide

/-- C3 (amended): in the blob feed loop the required-column check does
hold: a parsed file whose columns miss a required raw column is skipped as
a variant result — the trace is exactly download, parse, skip, the outcome
is a normal continuation (no exception), `previous_data` keeps its value
and `data_changed` is not set, so no staging, merge, archive or audit-log
call occurs for that file.  The file-share feeds perform no such check
(see the counterexample). -/
theorem c3_schema_reject_amended (prev : Option DataFrame) (file : String)
    (parsed : DataFrame)
    (h : ¬ (requiredColumns.all
      (fun c => c ∈ (addSourceFile parsed (basename file)).columns) = true)) :
    blobFileEvents prev file parsed
      = ([.download file, .parse file, .skipSchema file], .ok (prev, false)) := by
  unfold blobFileEvents
  rw [if_neg h]

/-- Witness for C3 (amended) at a parsed file with none of the required
columns. -/
theorem c3_schema_reject_amended_witness :
    blobFileEvents none "bad.csv" dfMissing
      = ([.download "bad.csv", .parse "bad.csv", .skipSchema "bad.csv"],
          .ok (none, false)) :=
  c3_schema_reject_amended none "bad.csv" dfMissing (by decide)

/-- The blob feed's normalized form of `dfGeneric` for a file named
`report.csv`: canonical columns, Period re-rendered. -/
def tGeneric : DataFrame :=
  ⟨canonicalColumns, [["M1", "01-03-2024", "T", "1", "2", "report.csv"]]⟩

/-- C4 counterexample: in the file-share IQPR feed, the duplicate check
compares the PREVIOUS file's transformed table with the CURRENT file's
raw (untransformed) table, so two files with identical content — whose
normalized tables are cell-for-cell identical — are NOT detected as
duplicates: the run stages and merges both, and never emits a skip. -/
theorem c4_iqpr_identical_files_restaged :
    transformPeriod (addSourceFile dfGeneric "report.csv") = .ok tGeneric ∧
    (runFiles iqprFileEvents none false
        [("report.csv", dfGeneric), ("report.csv", dfGeneric)]).1.count
      (Ev.stage "report.csv") = 2 ∧
    (runFiles iqprFileEvents none false
        [("report.csv", dfGeneric), ("report.csv", dfGeneric)]).1.count
      (Ev.merge "report.csv") = 2 ∧
    Ev.skipDup "report.csv" ∉
      (runFiles iqprFileEvents none false
        [("report.csv", dfGeneric), ("report.csv", dfGeneric)]).1 := by decide

/-- C4 (amended): the blob feed loop behaves as claimed — with no previous
table it never reports a duplicate, and when the current file's normalized
table equals the remembered previous one the file is skipped with no
staging or merge; the file-share feed loops instead compare the previous
TRANSFORMED table against the current RAW table (they report a duplicate
exactly when the raw parsed table equals the remembered one), so
identical files whose Period transform changes any value are re-staged
and re-merged. -/
theorem c4_duplicate_detection_amended :
    (∀ (file : String) (parsed : DataFrame),
      Ev.skipDup file ∉ (blobFileEvents none file parsed).1) ∧
    (∀ (prev : Option DataFrame) (file : String) (parsed : DataFrame) (t : DataFrame),
      requiredColumns.all
          (fun c => c ∈ (addSourceFile parsed (basename file)).columns) = true →
      (addSourceFile parsed (basename file)).columns.length = canonicalColumns.length →
      transformPeriod ⟨canonicalColumns, (addSourceFile parsed (basename file)).rows⟩
          = .ok t →
      prev = some t →
      blobFileEvents prev file parsed
        = ([.download file, .parse file, .skipDup file], .ok (prev, false))) ∧
    (∀ (prev : Option DataFrame) (file : String) (parsed : DataFrame),
      Ev.skipDup file ∈ (iqprFileEvents prev file parsed).1 ↔
        prev = some (addSourceFile parsed (basename file))) := by
  refine ⟨fun file parsed => ?_, fun prev file parsed t h1 h2 h3 h4 => ?_,
    fun prev file parsed => ?_⟩
  · unfold blobFileEvents
    dsimp only
    split
    · split
      · split
        · simp
        · split
          · rename_i h; exact absurd h (by simp)
          · simp
      · simp
    · simp
  · unfold blobFileEvents
    dsimp only
    rw [if_pos h1, if_pos h2, h3]
    dsimp only
    rw [if_pos h4]
  · unfold iqprFileEvents
    dsimp only
    split
    · rename_i h; simpa using h
    · rename_i h
      constructor
      · intro hm
        exact absurd (by revert hm; split <;> simp) (fun hh => hh)
      · intro hp; exact absurd hp h

/-- Witness for C4 (amended): the blob feed skips a file whose normalized
table equals the remembered previous one. -/
theorem c4_duplicate_detection_amended_witness :
    blobFileEvents (some tGeneric) "report.csv" dfGeneric
      = ([.download "report.csv", .parse "report.csv", .skipDup "report.csv"],
          .ok (some tGeneric, false)) :=
  c4_duplicate_detection_amended.2.1 (some tGeneric) "report.csv" dfGeneric tGeneric
    (by decide) (by decide) (by decide) rfl

/-! ## Claim C10: listings sorted ascending by last-modified, stably -/

/-- The comparison both listing functions sort by:
`key=lambda x: x[1]` ascending. -/
def lastModifiedLE (a b : String × Nat) : Bool := a.2 ≤ b.2

/-- Helper: `lastModifiedLE` is transitive. -/
theorem lastModifiedLE_trans (a b c : String × Nat)
    (hab : lastModifiedLE a b) (hbc : lastModifiedLE b c) : lastModifiedLE a c := by
  simp only [lastModifiedLE, decide_eq_true_eq] at *
  omega

/-- Helper: `lastModifiedLE` is total. -/
theorem lastModifiedLE_total (a b : String × Nat) :
    lastModifiedLE a b || lastModifiedLE b a := by
  simp only [lastModifiedLE, Bool.or_eq_true, decide_eq_true_eq]
  omega

unseal List.merge List.mergeSort in
/-- C10: both storage listings return the entry names sorted ascending by
last-modified timestamp with a stable tie-break: the sorted pair list is
pairwise ordered by timestamp, entries sharing a timestamp keep their
original listing order (the timestamp-`t` subsequence of the output equals
that of the input, for every `t`), and on the spec's end-to-end scenario —
a listing returning `b.csv` (t=2) then `a.csv` (t=1) — the processing
order after sorting and filtering is `a.csv` then `b.csv`. -/
theorem c10_listing_sorted_stable :
    (∀ files : List (String × Nat),
      (files.mergeSort lastModifiedLE).Pairwise (fun a b => a.2 ≤ b.2)) ∧
    (∀ (files : List (String × Nat)) (t : Nat),
      (files.mergeSort lastModifiedLE).filter (fun e => e.2 = t)
        = files.filter (fun e => e.2 = t)) ∧
    list_files_sorted [("b.csv", 2), ("a.csv", 1)] = ["a.csv", "b.csv"] ∧
    filter_files (list_files_sorted [("b.csv", 2), ("a.csv", 1)])
      = ["a.csv", "b.csv"] := by
  have hsorted := fun files : List (String × Nat) =>
    List.sorted_mergeSort lastModifiedLE_trans lastModifiedLE_total files
  refine ⟨fun files => ?_, fun files t => ?_, ?_, ?_⟩
  · exact (hsorted files).imp (by simp [lastModifiedLE])
  · have hmem : ∀ a ∈ files.filter (fun e => decide (e.2 = t)), a.2 = t := by
      intro a ha
      simpa using (List.mem_filter.mp ha).2
    have hpair : (files.filter (fun e => decide (e.2 = t))).Pairwise
        (fun a b => lastModifiedLE a b = true) := by
      refine List.pairwise_of_forall_mem_list (fun a ha b hb => ?_)
      simp [lastModifiedLE, hmem a ha, hmem b hb]
    have hsub : List.Sublist (files.filter (fun e => decide (e.2 = t)))
        (files.mergeSort lastModifiedLE) :=
      List.sublist_mergeSort lastModifiedLE_trans lastModifiedLE_total hpair
        (List.filter_sublist files)
    have hsub2 : List.Sublist (files.filter (fun e => decide (e.2 = t)))
        ((files.mergeSort lastModifiedLE).filter (fun e => decide (e.2 = t))) := by
      have h2 := hsub.filter (fun e => decide (e.2 = t))
      rwa [List.filter_eq_self.mpr (fun a ha => by simpa using hmem a ha)] at h2
    have hperm : List.Perm
        ((files.mergeSort lastModifiedLE).filter (fun e => decide (e.2 = t)))
        (files.filter (fun e => decide (e.2 = t))) :=
      (List.mergeSort_perm files lastModifiedLE).filter _
    exact (hsub2.eq_of_length hperm.length_eq.symm).symm
  · decide
  · decide

end QvhDataLoad
